import Mathlib

/-!
# Verification of the elderguardai audio bridge

Shallow embedding of the core of the `swatipiyer/elderguardai` repository:
the mu-law codec and resamplers of `src/backend/twilio-server.ts`, the
tool-call (verdict) handling and teardown of
`src/services/geminiLiveService.ts`, and the playback scheduler of the
simulator component (`src/unnamed/part_000`), together with theorems
settling the spec's testable properties.

JavaScript numbers in the relevant code paths are small integers, so they
are embedded as `Nat`/`Int` with explicit wrapping where a typed array
store could wrap.
-/

namespace ElderGuard

/-! ## Codec layer (src/backend/twilio-server.ts)

`MU_LAW_TABLE` is built at module load:
```
for (let i = 0; i < 256; i++) {
  let sign = i & 0x80 ? -1 : 1;
  let exponent = (i >> 4) & 0x07;
  let mantissa = i & 0x0f;
  let sample = (((mantissa << 3) + 0x84) << exponent) - 0x84;
  MU_LAW_TABLE[i] = sign * sample;
}
```
The table is an `Int16Array`, so the store wraps to a signed 16-bit
value; `toInt16` models that store. -/

/-- Wrap an integer to the signed 16-bit range, as an `Int16Array` store does. -/
def toInt16 (x : Int) : Int :=
  ((x + 32768) % 65536) - 32768

/-- Entry `i` of the decode table `MU_LAW_TABLE` (an `Int16Array(256)`),
translated from the module-load loop in `src/backend/twilio-server.ts`. -/
def MU_LAW_TABLE (i : Nat) : Int :=
  let sign : Int := if i &&& 0x80 ≠ 0 then -1 else 1
  let exponent : Nat := (i >>> 4) &&& 0x07
  let mantissa : Nat := i &&& 0x0f
  let sample : Int := (((mantissa <<< 3) + 0x84) <<< exponent : Nat) - 0x84
  toInt16 (sign * sample)

/-- `decodeMulaw`: element-wise lookup of each byte of the buffer in the
decode table. A `Buffer` byte is exactly a value in `0..255`, embedded as
`Fin 256`. -/
def decodeMulaw (data : List (Fin 256)) : List Int :=
  data.map fun b => MU_LAW_TABLE b.val

/-- The companding-law expansion named by the spec: sign bit, 3-bit
exponent, 4-bit mantissa, `sample = sign * (((mantissa << 3) + bias) <<
exponent - bias)` with `bias = 0x84`.  Stated from the spec's words, to be
compared with the table built by the source. -/
def muLawSpecValue (i : Nat) : Int :=
  let sign : Int := if i &&& 0x80 ≠ 0 then -1 else 1
  let exponent : Nat := (i >>> 4) &&& 0x07
  let mantissa : Nat := i &&& 0x0f
  sign * (((mantissa <<< 3) + 0x84 : Int) * 2 ^ exponent - 0x84)

/-- Clamp of a sample to the signed 16-bit range, from the head of the
`encodeMulaw` loop. -/
def clampInt16 (x : Int) : Int :=
  if x < -32768 then -32768 else if x > 32767 then 32767 else x

/-- The encoder's exponent search loop:
```
let exponent = 7;
for (let exp = 0; exp < 8; exp++) {
    if (sample < (1 << (exp + 3))) { exponent = exp; break; }
}
```
embedded as a walk over the loop's iteration values, defaulting to 7. -/
def muExponentAux (sample : Nat) : List Nat → Nat
  | [] => 7
  | e :: rest => if sample < (1 <<< (e + 3)) then e else muExponentAux sample rest

/-- The exponent the encoder selects for a biased magnitude. -/
def muExponent (sample : Nat) : Nat :=
  muExponentAux sample [0, 1, 2, 3, 4, 5, 6, 7]

/-- One iteration of the `encodeMulaw` loop body: clamp, extract sign,
bias the magnitude, find the exponent, extract the mantissa, pack and
invert (the byte store masks the one's complement to 8 bits, so `~v` stored
in a `Buffer` is `v ^^^ 0xFF`). Returns the stored byte. -/
def encodeMulawSample (x : Int) : Nat :=
  let sample := clampInt16 x
  let sign : Nat := if sample < 0 then 0x80 else 0
  let mag : Nat := (if sample < 0 then -sample else sample).toNat
  let biased : Nat := mag + 0x84
  let exponent : Nat := muExponent biased
  let mantissa : Nat := (biased >>> (exponent + 3)) &&& 0x0F
  (sign ||| (exponent <<< 4) ||| mantissa) ^^^ 0xFF

/-- `encodeMulaw`: element-wise encoding of a PCM frame to mu-law bytes. -/
def encodeMulaw (pcmData : List Int) : List Nat :=
  pcmData.map encodeMulawSample

/-- One quantization step of the exponent band the encoder chose for `x`:
a unit of mantissa at exponent `e` is worth `1 <<< (e + 3)` in the decode
formula. -/
def muQuantStep (x : Int) : Nat :=
  let sample := clampInt16 x
  let mag : Nat := (if sample < 0 then -sample else sample).toNat
  1 <<< (muExponent (mag + 0x84) + 3)

/-! ## Resamplers (src/backend/twilio-server.ts) -/

/-- `resample8kTo16k`: zero-order hold; `output[2i] = output[2i+1] = input[i]`,
output length `2 * input.length`. -/
def resample8kTo16k (input : List Int) : List Int :=
  input.flatMap fun s => [s, s]

/-- `resample24kTo8k`: decimation; output length `⌊input.length / 3⌋` and
`output[i] = input[3i]` (the index `3i` is always in bounds, so the
default of `getD` is never read). -/
def resample24kTo8k (input : List Int) : List Int :=
  (List.range (input.length / 3)).map fun i => input.getD (i * 3) 0

/-! ## Verdict protocol (src/services/geminiLiveService.ts, onmessage)

The handler iterates over `msg.toolCall.functionCalls`; for each call
named `report_outcome` it delivers `call.args` to `callbacks.onToolCall`
(after an unchecked cast, with no payload validation and no once-guard)
and queues one `sendToolResponse` acknowledgment carrying the call's id. -/

/-- The payload of a tool-call invocation as seen after the unchecked cast
`call.args as unknown as AgentToolResponse`: any field may be absent. -/
structure ToolArgs where
  verdict : Option String
  reason : Option String
  confidence : Option Int
deriving DecidableEq

/-- One entry of `msg.toolCall.functionCalls`. -/
structure FunctionCall where
  name : String
  id : String
  args : ToolArgs
deriving DecidableEq

/-- The `functionResponses` payload of `session.sendToolResponse`. -/
structure ToolResponsePayload where
  id : String
  name : String
  result : String
deriving DecidableEq

/-- The `for (const call of msg.toolCall.functionCalls)` loop of the
interactive bridge's `onmessage`: returns the list of payloads delivered
to `callbacks.onToolCall` and the list of acknowledgments sent back via
`sendToolResponse`, in loop order. -/
def handleToolCall : List FunctionCall → List ToolArgs × List ToolResponsePayload
  | [] => ([], [])
  | c :: rest =>
    let r := handleToolCall rest
    if c.name = "report_outcome" then
      (c.args :: r.1, ⟨c.id, c.name, "Assessment Logged"⟩ :: r.2)
    else r

/-- Verdict deliveries over a whole session: the remote session emits a
sequence of tool-call messages, each carrying its `functionCalls`; the
handler state is empty (no once-guard exists in the source), so deliveries
simply accumulate. -/
def sessionToolDeliveries : List (List FunctionCall) → List ToolArgs
  | [] => []
  | m :: rest => (handleToolCall m).1 ++ sessionToolDeliveries rest

/-! ## Telephony bridge (src/backend/twilio-server.ts, websocket handlers) -/

/-- A message from the Gemini session as seen by the telephony bridge's
`onmessage`: optional inline audio (decoded to its 24 kHz PCM samples) and
optional tool call. -/
structure GeminiServerMessage where
  audioData : Option (List Int)
  toolCall : Option (List FunctionCall)

/-- An outbound Twilio media envelope: `{event: "media", streamSid,
media.payload}` with the base64 mu-law payload abstracted to its bytes. -/
structure TwilioMediaOut where
  streamSid : String
  payload : List Nat
deriving DecidableEq

/-- The Gemini `onmessage` callback of the telephony bridge: the audio
branch downsamples 24 kHz → 8 kHz, mu-law encodes, and sends one media
envelope over the Twilio socket; the tool-call branch only runs
`console.log` — it sends no tool response (the hang-up is commented out).
Returns the Twilio sends and the tool responses sent to Gemini. -/
def twilioOnMessage (streamSid : String) (msg : GeminiServerMessage) :
    List TwilioMediaOut × List ToolResponsePayload :=
  let mediaOut : List TwilioMediaOut :=
    match msg.audioData with
    | some pcm24k => [⟨streamSid, encodeMulaw (resample24kTo8k pcm24k)⟩]
    | none => []
  (mediaOut, [])

/-- Connection-local state read by the telephony bridge's
`ws.on("message")` handler: the captured stream id and the remote session
handle, which is `null` until the Gemini handshake (`await sessionPromise`)
resolves. The handler itself never assigns `geminiSession`. -/
structure TwilioBridgeState where
  streamSid : String
  geminiSession : Option Unit
deriving DecidableEq

/-- A parsed inbound Twilio socket message, by its `event` discriminator. -/
inductive TwilioEvent where
  | start (streamSid : String)
  | media (payload : List (Fin 256))
  | stop
deriving DecidableEq

/-- The `ws.on("message")` handler: `start` captures the stream id;
`media` decodes and upsamples the chunk and submits it to the Gemini
session — but only when `geminiSession` is non-null; `stop` closes the
Gemini session if present. Returns the updated state, the frames
submitted via `sendRealtimeInput` (abstracted to their 16 kHz samples),
and the number of `close()` calls issued to the Gemini session. -/
def twilioWsOnMessage (st : TwilioBridgeState) :
    TwilioEvent → TwilioBridgeState × List (List Int) × Nat
  | .start sid => ({ st with streamSid := sid }, [], 0)
  | .media payload =>
    match st.geminiSession with
    | some _ => (st, [resample8kTo16k (decodeMulaw payload)], 0)
    | none => (st, [], 0)
  | .stop => (st, [], if st.geminiSession.isSome then 1 else 0)

/-- Processing a sequence of inbound Twilio socket messages in arrival
order, accumulating the frames forwarded to Gemini and the close calls. -/
def twilioProcessEvents (st : TwilioBridgeState) :
    List TwilioEvent → TwilioBridgeState × List (List Int) × Nat
  | [] => (st, [], 0)
  | e :: rest =>
    let r1 := twilioWsOnMessage st e
    let r2 := twilioProcessEvents r1.1 rest
    (r2.1, r1.2.1 ++ r2.2.1, r1.2.2 + r2.2.2)

/-- The `onaudioprocess` callback of the interactive bridge (the blob
serialization of `createPcmBlob` is abstracted to the samples and the
declared sample rate): the callback returns immediately unless the
service is active, otherwise it submits exactly one frame. -/
def onaudioprocessSends (isActive : Bool) (inputData : List Int) (rate : Nat) :
    List (List Int × Nat) :=
  if !isActive then [] else [(inputData, rate)]

/-! ## Interactive bridge lifecycle (src/services/geminiLiveService.ts) -/

/-- The fields of `GeminiLiveService` that `startSession` / `stopSession` /
`cleanup` read and write; `Option Unit` models a nullable handle. -/
structure GLSState where
  session : Option Unit
  inputAudioContext : Option Unit
  inputSource : Option Unit
  processor : Option Unit
  stream : Option Unit
  isActive : Bool
deriving DecidableEq

/-- Resource-release actions performed by a single `cleanup`/`stopSession`
call: batches of `track.stop()`, `inputSource.disconnect()`,
`processor.disconnect()`, `inputAudioContext.close()`, `session.close()`. -/
structure ReleaseLog where
  streamTrackStops : Nat
  inputSourceDisconnects : Nat
  processorDisconnects : Nat
  contextCloses : Nat
  sessionCloses : Nat
deriving DecidableEq

/-- The private `cleanup` method: clears `isActive`; stops and nulls the
stream; disconnects the nodes when both `processor` and `inputSource` are
non-null (the source never nulls either of them); closes and nulls the
audio context. -/
def cleanup (s : GLSState) : GLSState × ReleaseLog :=
  let s1 : GLSState := { s with isActive := false }
  let streamStep : GLSState × Nat :=
    match s1.stream with
    | some _ => ({ s1 with stream := none }, 1)
    | none => (s1, 0)
  let s2 := streamStep.1
  let discSteps : Nat × Nat :=
    if s2.processor.isSome && s2.inputSource.isSome then (1, 1) else (0, 0)
  let ctxStep : GLSState × Nat :=
    match s2.inputAudioContext with
    | some _ => ({ s2 with inputAudioContext := none }, 1)
    | none => (s2, 0)
  (ctxStep.1, ⟨streamStep.2, discSteps.2, discSteps.1, ctxStep.2, 0⟩)

/-- `stopSession`: calls `session.close()` inside a try/catch when the
handle is non-null (the handle itself is never nulled), then `cleanup`. -/
def stopSession (s : GLSState) : GLSState × ReleaseLog :=
  let closes : Nat := if s.session.isSome then 1 else 0
  let r := cleanup s
  (r.1, { r.2 with sessionCloses := closes })

/-- The three teardown triggers: explicit `stopSession`, the remote
session's `onclose` callback (which runs `cleanup`), and its `onerror`
callback (which also runs `cleanup`). -/
inductive CloseTrigger where
  | explicitStop
  | remoteClose
  | remoteError
deriving DecidableEq

/-- Run one teardown trigger against the service state. -/
def runTrigger (s : GLSState) : CloseTrigger → GLSState × ReleaseLog
  | .explicitStop => stopSession s
  | .remoteClose => cleanup s
  | .remoteError => cleanup s

/-- A fully-initialized active service state (microphone stream, audio
context, source and processor nodes, remote session handle all live). -/
def glsInit : GLSState :=
  ⟨some (), some (), some (), some (), some (), true⟩

/-- External acquisitions performed by `startSession`'s non-active path:
`navigator.mediaDevices.getUserMedia`, `new AudioContext()`,
`client.live.connect`. -/
inductive StartAction where
  | getUserMedia
  | createAudioContext
  | liveConnect
deriving DecidableEq

/-- `startSession`: returns immediately when `isActive` is already set;
otherwise (success path, asynchronous completions folded into the result)
acquires the microphone, creates the input audio context, opens the remote
session, and — in the `onopen` callback — sets `isActive` and wires the
source and processor nodes. -/
def startSession (s : GLSState) : GLSState × List StartAction :=
  if s.isActive then (s, [])
  else
    ({ s with stream := some (), inputAudioContext := some (),
              inputSource := some (), processor := some (),
              session := some (), isActive := true },
     [.getUserMedia, .createAudioContext, .liveConnect])

/-! ## Playback scheduler (src/unnamed/part_000, the Simulator component) -/

/-- The simulator's call-status enum. -/
inductive SimStatus where
  | idle
  | connected
  | assessing
  | finished
deriving DecidableEq

/-- The simulator state the scheduler claims concern: the connection flag,
the status, and the `nextStartTimeRef` cursor (device-clock seconds). -/
structure SimState where
  isConnected : Bool
  status : SimStatus
  nextStartTime : ℚ
deriving DecidableEq

/-- The `onAudioData` callback: `startTime = max(nextStartTimeRef.current,
ctx.currentTime)`, `source.start(startTime)`, then
`nextStartTimeRef.current = startTime + buffer.duration`. Returns the
scheduled start time and the updated state. -/
def onAudioData (s : SimState) (currentTime duration : ℚ) : ℚ × SimState :=
  let startTime := max s.nextStartTime currentTime
  (startTime, { s with nextStartTime := startTime + duration })

/-- `handleHangUp`: stops the service, flips the connection flags, and
resets the audio-timing cursor to zero. -/
def handleHangUp (s : SimState) : SimState :=
  { s with isConnected := false, status := .idle, nextStartTime := 0 }

/-- The simulator's `onDisconnect` callback: clears the connection flag
and status but leaves `nextStartTimeRef` untouched. -/
def simOnDisconnect (s : SimState) : SimState :=
  { s with isConnected := false, status := .idle }

/-- The simulator's `onError` callback: records the error and clears the
connection flag and status; like `onDisconnect`, it leaves
`nextStartTimeRef` untouched. -/
def simOnError (s : SimState) : SimState :=
  { s with isConnected := false, status := .idle }

/-- Two consecutive teardown triggers from a state: the outcome of the
first and, from its resulting state, the outcome of the second. -/
def runTwoTriggers (s : GLSState) (t1 t2 : CloseTrigger) :
    (GLSState × ReleaseLog) × (GLSState × ReleaseLog) :=
  let r1 := runTrigger s t1
  (r1, runTrigger r1.1 t2)

/-! ## Helper lemmas -/

theorem resample8kTo16k_cons (a : Int) (l : List Int) :
    resample8kTo16k (a :: l) = a :: a :: resample8kTo16k l := rfl

theorem resample8kTo16k_length (l : List Int) :
    (resample8kTo16k l).length = 2 * l.length := by
  induction l with
  | nil => rfl
  | cons a l ih =>
    rw [resample8kTo16k_cons]
    simp only [List.length_cons, ih]
    ring

theorem resample8kTo16k_getElem (l : List Int) (i : Nat) :
    (resample8kTo16k l)[2 * i]? = l[i]? ∧
    (resample8kTo16k l)[2 * i + 1]? = l[i]? := by
  induction l generalizing i with
  | nil => simp [resample8kTo16k]
  | cons a l ih =>
    rw [resample8kTo16k_cons]
    cases i with
    | zero => simp
    | succ n =>
      have h2 : 2 * (n + 1) = 2 * n + 1 + 1 := by ring
      rw [h2]
      simp only [List.getElem?_cons_succ]
      exact ih n

theorem resample24kTo8k_length (l : List Int) :
    (resample24kTo8k l).length = l.length / 3 := by
  simp [resample24kTo8k]

theorem resample24kTo8k_getElem (l : List Int) (i : Nat) (h : i < l.length / 3) :
    (resample24kTo8k l)[i]? = l[3 * i]? := by
  have hlt : 3 * i < l.length := by omega
  have he : i * 3 = 3 * i := Nat.mul_comm i 3
  rw [resample24kTo8k, List.getElem?_map, List.getElem?_range h]
  simp only [Option.map_some', he]
  rw [List.getD_eq_getElem l 0 hlt, List.getElem?_eq_getElem hlt]

theorem handleToolCall_eq (calls : List FunctionCall) :
    handleToolCall calls =
      ((calls.filter fun c => c.name = "report_outcome").map fun c => c.args,
       (calls.filter fun c => c.name = "report_outcome").map
         fun c => ⟨c.id, c.name, "Assessment Logged"⟩) := by
  induction calls with
  | nil => rfl
  | cons c rest ih =>
    simp only [handleToolCall, ih, List.filter_cons]
    by_cases h : c.name = "report_outcome" <;> simp [h]

theorem twilioWsOnMessage_preserves_session (st : TwilioBridgeState)
    (e : TwilioEvent) :
    ((twilioWsOnMessage st e).1).geminiSession = st.geminiSession := by
  cases e with
  | start sid => rfl
  | media payload => cases h : st.geminiSession <;> simp [twilioWsOnMessage, h]
  | stop => rfl

/-! ## Claim theorems -/

/-- C1 (code bug): the spec's round-trip property — `decode(encode(x))`
within one quantization step of `x` — fails: at `x = 4000` the encoder
emits byte 139, which the table (built without undoing the one's
complement the encoder applies) decodes to `-88`, an error of 4088, far
beyond the 1024 quantization step of the band that encoded `x`. -/
theorem C1_roundtrip_violation :
    encodeMulawSample 4000 = 139 ∧
    MU_LAW_TABLE (encodeMulawSample 4000) = -88 ∧
    muQuantStep 4000 = 1024 ∧
    ¬ ((MU_LAW_TABLE (encodeMulawSample 4000) - 4000).natAbs ≤ muQuantStep 4000) := by
  decide

/-- C2 counterexample: a session in which the remote session emits two
verdict invocations delivers two verdicts to the collaborator, not exactly
one — there is no once-guard in the handler. -/
theorem C2_counterexample :
    ¬ ((sessionToolDeliveries
        [[⟨"report_outcome", "call-1", ⟨some "scam", some "gift cards", some 98⟩⟩],
         [⟨"report_outcome", "call-2", ⟨some "safe", some "family", some 40⟩⟩]]).length
       = 1) := by
  decide

/-- C2 (amended): every invocation of the verdict function reaching the
handler is delivered to the collaborator, in arrival order — a second
invocation is delivered as well, not ignored; processing is total, so no
invocation crashes the session. -/
theorem C2_every_invocation_delivered (msgs : List (List FunctionCall)) :
    sessionToolDeliveries msgs =
      ((msgs.flatMap fun m => m.filter fun c => c.name = "report_outcome").map
        fun c => c.args) := by
  induction msgs with
  | nil => rfl
  | cons m rest ih =>
    simp only [sessionToolDeliveries, handleToolCall_eq, ih, List.flatMap_cons,
      List.map_append]

/-- C3 counterexample: a verdict invocation whose payload omits `verdict`
(and every other field) is still delivered to the external collaborator —
the handler performs no payload validation. -/
theorem C3_counterexample :
    (handleToolCall [⟨"report_outcome", "call-9", ⟨none, none, none⟩⟩]).1 ≠ [] := by
  decide

/-- C3 (amended): the handler validates only the function name, never the
payload: any `args` record — including one omitting `verdict` — is
delivered unchanged to the collaborator and acknowledged; processing is
total and leaves the session state untouched (the session remains
active). -/
theorem C3_no_payload_validation (callId : String) (args : ToolArgs) :
    handleToolCall [⟨"report_outcome", callId, args⟩] =
      ([args], [⟨callId, "report_outcome", "Assessment Logged"⟩]) := by
  simp [handleToolCall]

/-- C4: before the remote handshake resolves the telephony bridge's
session handle is `none`, and the socket handler never assigns it, so no
inbound chunk in any event sequence is forwarded to the remote session
(and processing is total, hence no crash); on the interactive path, the
`onaudioprocess` callback submits nothing while the service is not
active. -/
theorem C4_no_prehandshake_forwarding (st : TwilioBridgeState)
    (events : List TwilioEvent) (h : st.geminiSession = none) :
    (twilioProcessEvents st events).2.1 = [] ∧
    ∀ (inputData : List Int) (rate : Nat),
      onaudioprocessSends false inputData rate = [] := by
  refine ⟨?_, fun _ _ => rfl⟩
  induction events generalizing st with
  | nil => rfl
  | cons e rest ih =>
    have hpres := twilioWsOnMessage_preserves_session st e
    rw [h] at hpres
    have hsends : (twilioWsOnMessage st e).2.1 = [] := by
      cases e with
      | start sid => rfl
      | media payload => simp [twilioWsOnMessage, h]
      | stop => rfl
    simp only [twilioProcessEvents, hsends, List.nil_append]
    exact ih _ hpres

/-- Witness for C4: three inbound media chunks arriving before the
handshake (session handle still `none`) forward zero frames, and an
inactive interactive bridge submits nothing. -/
theorem C4_no_prehandshake_forwarding_witness :
    (twilioProcessEvents ⟨"", none⟩
      [.media [0], .media [127], .media [255]]).2.1 = [] ∧
    onaudioprocessSends false [1, 2, 3] 48000 = [] :=
  ⟨(C4_no_prehandshake_forwarding ⟨"", none⟩
      [.media [0], .media [127], .media [255]] rfl).1,
   (C4_no_prehandshake_forwarding ⟨"", none⟩ [] rfl).2 [1, 2, 3] 48000⟩

/-- C5 counterexample: from a fully-initialized active service, two
`stopSession` calls do not release each resource exactly once: the node
disconnects and the remote-session close are re-executed by the second
call (only the stream and the audio context are guarded by nulling). -/
theorem C5_counterexample :
    ¬ ((stopSession glsInit).2.streamTrackStops +
         (stopSession (stopSession glsInit).1).2.streamTrackStops = 1 ∧
       (stopSession glsInit).2.inputSourceDisconnects +
         (stopSession (stopSession glsInit).1).2.inputSourceDisconnects = 1 ∧
       (stopSession glsInit).2.processorDisconnects +
         (stopSession (stopSession glsInit).1).2.processorDisconnects = 1 ∧
       (stopSession glsInit).2.contextCloses +
         (stopSession (stopSession glsInit).1).2.contextCloses = 1 ∧
       (stopSession glsInit).2.sessionCloses +
         (stopSession (stopSession glsInit).1).2.sessionCloses = 1) := by
  decide

/-- C5 (amended): across any two teardown triggers from a fully-initialized
state, the microphone stream and the audio context are released exactly
once (they are nulled after release); the source/processor disconnects run
on every teardown call, and `session.close()` runs on every explicit stop
(neither handle is ever nulled); no call raises — `cleanup` is total and
the close is wrapped in try/catch — and the service ends inactive. -/
theorem C5_teardown_partly_guarded (t1 t2 : CloseTrigger) (b : Bool) :
    ((runTwoTriggers ⟨some (), some (), some (), some (), some (), b⟩ t1 t2).1.2.streamTrackStops +
       (runTwoTriggers ⟨some (), some (), some (), some (), some (), b⟩ t1 t2).2.2.streamTrackStops = 1 ∧
     (runTwoTriggers ⟨some (), some (), some (), some (), some (), b⟩ t1 t2).1.2.contextCloses +
       (runTwoTriggers ⟨some (), some (), some (), some (), some (), b⟩ t1 t2).2.2.contextCloses = 1) ∧
    ((runTwoTriggers ⟨some (), some (), some (), some (), some (), b⟩ t1 t2).1.2.inputSourceDisconnects = 1 ∧
     (runTwoTriggers ⟨some (), some (), some (), some (), some (), b⟩ t1 t2).2.2.inputSourceDisconnects = 1 ∧
     (runTwoTriggers ⟨some (), some (), some (), some (), some (), b⟩ t1 t2).1.2.processorDisconnects = 1 ∧
     (runTwoTriggers ⟨some (), some (), some (), some (), some (), b⟩ t1 t2).2.2.processorDisconnects = 1) ∧
    ((runTwoTriggers ⟨some (), some (), some (), some (), some (), b⟩ t1 t2).1.2.sessionCloses =
       (if t1 = CloseTrigger.explicitStop then 1 else 0) ∧
     (runTwoTriggers ⟨some (), some (), some (), some (), some (), b⟩ t1 t2).2.2.sessionCloses =
       (if t2 = CloseTrigger.explicitStop then 1 else 0)) ∧
    (runTwoTriggers ⟨some (), some (), some (), some (), some (), b⟩ t1 t2).2.1.isActive = false := by
  cases t1 <;> cases t2 <;> cases b <;> decide

/-- C6: `resample8kTo16k` duplicates each sample (`output[2i] =
output[2i+1] = input[i]`) and has length exactly `2 * len(input)`;
`resample24kTo8k` keeps every third sample from index 0 (`output[i] =
input[3i]`) and has length exactly `⌊len(input) / 3⌋`. -/
theorem C6_resampling_laws (input : List Int) :
    (resample8kTo16k input).length = 2 * input.length ∧
    (∀ i : Nat, (resample8kTo16k input)[2 * i]? = input[i]? ∧
      (resample8kTo16k input)[2 * i + 1]? = input[i]?) ∧
    (resample24kTo8k input).length = input.length / 3 ∧
    ∀ i : Nat, i < input.length / 3 →
      (resample24kTo8k input)[i]? = input[3 * i]? :=
  ⟨resample8kTo16k_length input,
   fun i => resample8kTo16k_getElem input i,
   resample24kTo8k_length input,
   fun i h => resample24kTo8k_getElem input i h⟩

/-- Witness for C6 at `input = [10, 20, 30, 40, 50, 60, 70]`. -/
theorem C6_resampling_laws_witness :
    (resample8kTo16k [10, 20, 30, 40, 50, 60, 70]).length = 14 ∧
    (resample8kTo16k [10, 20, 30, 40, 50, 60, 70])[5]? = some 30 ∧
    (resample24kTo8k [10, 20, 30, 40, 50, 60, 70]).length = 2 ∧
    (resample24kTo8k [10, 20, 30, 40, 50, 60, 70])[1]? = some 40 := by
  refine ⟨by simpa using (C6_resampling_laws [10, 20, 30, 40, 50, 60, 70]).1, ?_,
    by simpa using (C6_resampling_laws [10, 20, 30, 40, 50, 60, 70]).2.2.1, ?_⟩
  · have h := ((C6_resampling_laws [10, 20, 30, 40, 50, 60, 70]).2.1 2).2
    simpa using h
  · have h := (C6_resampling_laws [10, 20, 30, 40, 50, 60, 70]).2.2.2 1 (by decide)
    simpa using h

set_option maxRecDepth 8192 in
/-- C7: the decode table agrees with the spec's companding-law expansion
`sign * (((mantissa << 3) + 0x84) << exponent - 0x84)` on all 256 bytes
(in particular the `Int16Array` store never wraps), and `decodeMulaw` is
total: it is defined on every byte sequence, preserves length, and maps
each byte through the table. -/
theorem C7_decode_total_and_table_law :
    (∀ i : Fin 256, MU_LAW_TABLE i.val = muLawSpecValue i.val) ∧
    ∀ data : List (Fin 256),
      (decodeMulaw data).length = data.length ∧
      ∀ i : Nat, (decodeMulaw data)[i]? =
        (data[i]?).map fun b => MU_LAW_TABLE b.val := by
  refine ⟨by decide, fun data => ⟨by simp [decodeMulaw], fun i => ?_⟩⟩
  simp [decodeMulaw, List.getElem?_map]

/-- C8 counterexample: the telephony bridge, on receiving a valid verdict
invocation from the remote session, sends zero acknowledgments (its
tool-call branch only logs), not exactly one. -/
theorem C8_counterexample :
    (twilioOnMessage "MZ123"
      ⟨none, some [⟨"report_outcome", "call-1",
        ⟨some "scam", none, none⟩⟩]⟩).2.length ≠ 1 := by
  decide

/-- C8 (amended): the interactive bridge sends exactly one acknowledgment
per verdict invocation, and each acknowledgment carries that invocation's
identifier; the telephony bridge sends no acknowledgment at all. -/
theorem C8_ack_per_bridge :
    (∀ calls : List FunctionCall,
      (handleToolCall calls).2 =
        (calls.filter fun c => c.name = "report_outcome").map
          fun c => ⟨c.id, c.name, "Assessment Logged"⟩) ∧
    ∀ (sid : String) (msg : GeminiServerMessage),
      (twilioOnMessage sid msg).2 = [] := by
  refine ⟨fun calls => ?_, fun sid msg => rfl⟩
  rw [handleToolCall_eq]

/-- C9 counterexample: a session ended by the remote side (the simulator's
`onDisconnect`) does not reset the playback cursor: from cursor 5 it stays
5, not 0. -/
theorem C9_counterexample :
    (simOnDisconnect ⟨true, SimStatus.connected, 5⟩).nextStartTime ≠ 0 := by
  norm_num [simOnDisconnect]

/-- C9 (amended): every decoded buffer is scheduled at
`max(nextScheduledTime, currentDeviceClockTime)` and the cursor then
advances to `startTime + bufferDuration`, so for nonnegative durations the
cursor is monotonically non-decreasing; the cursor is reset to zero on
explicit hang-up, but a session ended by remote disconnect or error leaves
it unchanged. -/
theorem C9_scheduler_laws (s : SimState) (currentTime duration : ℚ)
    (hd : 0 ≤ duration) :
    (onAudioData s currentTime duration).1 = max s.nextStartTime currentTime ∧
    ((onAudioData s currentTime duration).2).nextStartTime =
      max s.nextStartTime currentTime + duration ∧
    s.nextStartTime ≤ ((onAudioData s currentTime duration).2).nextStartTime ∧
    (handleHangUp s).nextStartTime = 0 ∧
    (simOnDisconnect s).nextStartTime = s.nextStartTime ∧
    (simOnError s).nextStartTime = s.nextStartTime := by
  refine ⟨rfl, rfl, ?_, rfl, rfl, rfl⟩
  have h1 : s.nextStartTime ≤ max s.nextStartTime currentTime := le_max_left _ _
  have h2 : max s.nextStartTime currentTime ≤
      max s.nextStartTime currentTime + duration := le_add_of_nonneg_right hd
  exact le_trans h1 h2

/-- Witness for C9 at cursor 3, device clock 7, buffer duration 2. -/
theorem C9_scheduler_laws_witness :
    (0 : ℚ) ≤ 2 ∧
    ((onAudioData ⟨true, SimStatus.connected, 3⟩ 7 2).1 = max 3 7 ∧
     ((onAudioData ⟨true, SimStatus.connected, 3⟩ 7 2).2).nextStartTime = max 3 7 + 2 ∧
     (3 : ℚ) ≤ ((onAudioData ⟨true, SimStatus.connected, 3⟩ 7 2).2).nextStartTime ∧
     (handleHangUp ⟨true, SimStatus.connected, 3⟩).nextStartTime = 0 ∧
     (simOnDisconnect ⟨true, SimStatus.connected, 3⟩).nextStartTime = 3 ∧
     (simOnError ⟨true, SimStatus.connected, 3⟩).nextStartTime = 3) :=
  ⟨by norm_num, C9_scheduler_laws ⟨true, SimStatus.connected, 3⟩ 7 2 (by norm_num)⟩

/-- C10: calling `startSession` while a session is already active returns
immediately: the state is unchanged and no external action (microphone
acquisition, audio-context creation, remote connect) is performed,
preserving at most one active remote session per service instance. -/
theorem C10_start_noop_when_active (s : GLSState) (h : s.isActive = true) :
    startSession s = (s, []) := by
  simp [startSession, h]

/-- Witness for C10 at the fully-initialized active state. -/
theorem C10_start_noop_when_active_witness :
    glsInit.isActive = true ∧ startSession glsInit = (glsInit, []) :=
  ⟨rfl, C10_start_noop_when_active glsInit rfl⟩

end ElderGuard
